import Mathlib

/-
Verification development for the AI_Article_Outline_generator repository.

The embedding covers the two source files:
  src/agents/content_strategist.py  (context builder, LLM generation, fallback)
  src/models/content_models.py      (pydantic schema of the ContentBrief)

Modelling conventions:
  - Python dict/list values flowing through the pipeline are embedded as the
    inductive type JVal; json.loads is embedded as an executable
    recursive-descent decoder jsonLoads restricted to the JSON fragment the
    pipeline actually handles (objects, arrays, strings with simple escapes,
    integers, booleans, null; no floats, since every numeric schema field is
    an integer).
  - The inference service (langchain ChatOpenAI) is an opaque text-completion
    oracle: each of the two possible chain invocations either raises
    (transport failure) or returns text.  The pydantic-constrained chain
    additionally runs schema-constrained decoding of that text.
  - Python exceptions inside the modelled code are explicit Except / Option
    values; a branch returning Except.error corresponds to an exception at
    that source line.
  - Confidence scores 0.9 and 0.3 are embedded as the rationals 9/10, 3/10.
-/

namespace ArticleOutline

/-- JSON-like values: the shape of Python dict/list/str/int/bool/None data
that flows through the fallback path and into the pipeline state. -/
inductive JVal where
  | null
  | bool (b : Bool)
  | num (n : Int)
  | str (s : String)
  | arr (xs : List JVal)
  | obj (fields : List (String × JVal))

/-- Opening curly brace character, written via its code point. -/
def lbrace : Char := Char.ofNat 123

/-- Closing curly brace character, written via its code point. -/
def rbrace : Char := Char.ofNat 125

/-- JSON insignificant whitespace. -/
def isWsChar (c : Char) : Bool := c == ' ' || c == '\n' || c == '\t' || c == '\r'

/-- Drop leading JSON whitespace. -/
def skipWs : List Char → List Char
  | [] => []
  | c :: cs => if isWsChar c then skipWs cs else c :: cs

/-- Decode a single JSON string escape character. -/
def escChar (e : Char) : Option Char :=
  if e == '"' then some '"'
  else if e == '\\' then some '\\'
  else if e == '/' then some '/'
  else if e == 'n' then some '\n'
  else if e == 't' then some '\t'
  else if e == 'r' then some '\r'
  else if e == 'b' then some (Char.ofNat 8)
  else if e == 'f' then some (Char.ofNat 12)
  else none

/-- Decode a JSON string body (input starts after the opening quote);
returns the decoded characters and the remaining input. -/
def parseJStrL : List Char → Option (List Char × List Char)
  | [] => none
  | c :: cs =>
    if c == '"' then some ([], cs)
    else if c == '\\' then
      match cs with
      | [] => none
      | e :: cs2 =>
        match escChar e with
        | some d =>
          match parseJStrL cs2 with
          | some (sl, rest) => some (d :: sl, rest)
          | none => none
        | none => none
    else
      match parseJStrL cs with
      | some (sl, rest) => some (c :: sl, rest)
      | none => none

/-- Take a maximal run of decimal digits. -/
def takeDigits : List Char → (List Char × List Char)
  | [] => ([], [])
  | c :: cs =>
    if c.isDigit then
      let r := takeDigits cs
      (c :: r.1, r.2)
    else ([], c :: cs)

/-- Numeric value of a digit run. -/
def digitsToNat (ds : List Char) : Nat :=
  ds.foldl (fun acc c => acc * 10 + (c.toNat - 48)) 0

/-- True when the input continues with a float marker; the model rejects
float literals (the schema only uses integers). -/
def startsFloat : List Char → Bool
  | [] => false
  | c :: _ => c == '.' || c == 'e' || c == 'E'

mutual

/-- Fueled recursive-descent JSON decoder for a single value. -/
def parseJAux : Nat → List Char → Option (JVal × List Char)
  | 0, _ => none
  | fuel + 1, cs0 =>
    match skipWs cs0 with
    | [] => none
    | c :: cs =>
      if c == 'n' then
        match cs with
        | 'u' :: 'l' :: 'l' :: rest => some (.null, rest)
        | _ => none
      else if c == 't' then
        match cs with
        | 'r' :: 'u' :: 'e' :: rest => some (.bool true, rest)
        | _ => none
      else if c == 'f' then
        match cs with
        | 'a' :: 'l' :: 's' :: 'e' :: rest => some (.bool false, rest)
        | _ => none
      else if c == '"' then
        match parseJStrL cs with
        | some (sl, rest) => some (.str (String.mk sl), rest)
        | none => none
      else if c == '-' then
        match takeDigits cs with
        | ([], _) => none
        | (ds, rest) =>
          if startsFloat rest then none
          else some (.num (-(Int.ofNat (digitsToNat ds))), rest)
      else if c.isDigit then
        match takeDigits (c :: cs) with
        | (ds, rest) =>
          if startsFloat rest then none
          else some (.num (Int.ofNat (digitsToNat ds)), rest)
      else if c == lbrace then
        match skipWs cs with
        | [] => none
        | d :: rest => if d == rbrace then some (.obj [], rest) else parseObjRest fuel (d :: rest) []
      else if c == '[' then
        match skipWs cs with
        | [] => none
        | d :: rest => if d == ']' then some (.arr [], rest) else parseArrRest fuel (d :: rest) []
      else none

/-- Decode the members of a JSON object after the opening brace
(nonempty case). -/
def parseObjRest : Nat → List Char → List (String × JVal) → Option (JVal × List Char)
  | 0, _, _ => none
  | fuel + 1, cs, acc =>
    match skipWs cs with
    | [] => none
    | q :: rest =>
      if q == '"' then
        match parseJStrL rest with
        | some (kl, rest2) =>
          match skipWs rest2 with
          | [] => none
          | colon :: rest3 =>
            if colon == ':' then
              match parseJAux fuel rest3 with
              | some (v, rest4) =>
                match skipWs rest4 with
                | [] => none
                | sep :: rest5 =>
                  if sep == ',' then parseObjRest fuel rest5 (acc ++ [(String.mk kl, v)])
                  else if sep == rbrace then some (.obj (acc ++ [(String.mk kl, v)]), rest5)
                  else none
              | none => none
            else none
        | none => none
      else none

/-- Decode the items of a JSON array after the opening bracket
(nonempty case). -/
def parseArrRest : Nat → List Char → List JVal → Option (JVal × List Char)
  | 0, _, _ => none
  | fuel + 1, cs, acc =>
    match parseJAux fuel cs with
    | some (v, rest) =>
      match skipWs rest with
      | [] => none
      | sep :: rest2 =>
        if sep == ',' then parseArrRest fuel rest2 (acc ++ [v])
        else if sep == ']' then some (.arr (acc ++ [v]), rest2)
        else none
    | none => none

end

/-- Model of json.loads: decode the whole string as one JSON value, failing
if trailing non-whitespace remains.  Returns none where Python raises. -/
def jsonLoads (s : String) : Option JVal :=
  match parseJAux (2 * s.length + 4) s.data with
  | some (j, rest) => if (skipWs rest).isEmpty then some j else none
  | none => none

/-- Model of the Python regex search for a brace-delimited substring,
re.search with the dotall flag on the pattern "brace, any characters,
brace": the match, when it exists, runs from the first opening brace to the
last closing brace of the text. -/
def extractBraced (raw : String) : Option String :=
  let cs := raw.data
  match cs.findIdx? (fun c => c == lbrace) with
  | none => none
  | some i =>
    match cs.reverse.findIdx? (fun c => c == rbrace) with
    | none => none
    | some k =>
      let j := cs.length - 1 - k
      if i < j then some (String.mk ((cs.drop i).take (j - i + 1))) else none

/-- Model of Python str.title(): a cased character is uppercased when the
previous character is not a letter and lowercased otherwise. -/
def pyTitleAux : Bool → List Char → List Char
  | _, [] => []
  | prevAlpha, c :: cs =>
    if c.isAlpha then
      (if prevAlpha then c.toLower else c.toUpper) :: pyTitleAux true cs
    else
      c :: pyTitleAux false cs

/-- Model of Python str.title() on a string. -/
def pyTitle (s : String) : String := String.mk (pyTitleAux false s.data)

/-- Python truthiness of a JSON-like value. -/
def JVal.truthy : JVal → Bool
  | .null => false
  | .bool b => b
  | .num n => n != 0
  | .str s => !(s == "")
  | .arr xs => !xs.isEmpty
  | .obj fs => !fs.isEmpty

/-- Field lookup inside a JSON object value. -/
def jField (j : JVal) (k : String) : Option JVal :=
  match j with
  | .obj fs => fs.lookup k
  | _ => none

/-- Typed keyword object, from content_models.py class KeywordData. -/
structure KeywordData where
  primary : String
  secondary : List String := []
  lsi : List String := []
  longtail : List String := []

/-- Keyword input in its two accepted shapes: a generic mapping (each
recognized key optionally present; a longtail entry may be present in the
mapping but is never read by the code) or a typed KeywordData object. -/
inductive KeywordInput where
  | dict (primary : Option String) (secondary : Option (List String))
      (lsi : Option (List String)) (longtail : Option (List String))
  | obj (k : KeywordData)

/-- Loosely-typed strategy configuration mapping; a none field models an
absent key, read through dict.get with the defaults of the source. -/
structure StrategyConfig where
  content_type : Option String := none
  search_intent : Option String := none
  estimated_word_count : Option Nat := none
  target_audience : Option String := none

/-- Competitor analysis mapping, possibly holding common_topics. -/
structure CompetitorAnalysis where
  common_topics : Option (List String) := none

/-- One people-also-ask entry of a search result. -/
structure PAAEntry where
  question : Option String := none

/-- One entry of the serper_results list. -/
structure SerperResult where
  people_also_ask : Option (List PAAEntry) := none

/-- One entry of the content_gaps list, read through dict.get. -/
structure ContentGapInput where
  topic : Option String := none

/-- Comma-joined rendering used by the context builder. -/
def joinComma (xs : List String) : String := String.intercalate ", " xs

/-- Semicolon-joined rendering used by the context builder. -/
def joinSemi (xs : List String) : String := String.intercalate "; " xs

/-- Embedding of content_strategist._build_strategy_context, lines 33 to 80.
Each let corresponds to a source statement; note that both keyword shapes
set the local longtail variable to None (source lines 43 and 49), so the
longtail branch at line 57 never fires. -/
def build_strategy_context (keywords : KeywordInput) (content_strategy : StrategyConfig)
    (competitor_analysis : CompetitorAnalysis) (serper_results : List SerperResult)
    (content_gaps : List ContentGapInput) : String :=
  let primary_keyword : String :=
    match keywords with
    | .dict p _ _ _ => p.getD ""
    | .obj k => k.primary
  let secondary_keywords : List String :=
    match keywords with
    | .dict _ s _ _ => s.getD []
    | .obj k => k.secondary
  let lsi_keywords : List String :=
    match keywords with
    | .dict _ _ l _ => l.getD []
    | .obj k => k.lsi
  let longtail_keywords : Option (List String) := none
  let parts0 := ["PRIMARY KEYWORD: " ++ primary_keyword]
  let parts1 :=
    if secondary_keywords.isEmpty then parts0
    else parts0 ++ ["SECONDARY KEYWORDS: " ++ joinComma secondary_keywords]
  let parts2 :=
    if lsi_keywords.isEmpty then parts1
    else parts1 ++ ["LSI KEYWORDS: " ++ joinComma lsi_keywords]
  let parts3 :=
    match longtail_keywords with
    | some lt => if lt.isEmpty then parts2 else parts2 ++ ["LONGTAIL KEYWORDS: " ++ joinComma lt]
    | none => parts2
  let parts4 := parts3 ++ ["CONTENT TYPE: " ++ content_strategy.content_type.getD "guide"]
  let parts5 := parts4 ++ ["SEARCH INTENT: " ++ content_strategy.search_intent.getD "informational"]
  let parts6 := parts5 ++ ["TARGET WORD COUNT: " ++ toString (content_strategy.estimated_word_count.getD 2500)]
  let parts7 :=
    match competitor_analysis.common_topics with
    | some ts => if ts.isEmpty then parts6 else parts6 ++ ["COMPETITOR TOPICS: " ++ joinComma (ts.take 10)]
    | none => parts6
  let parts8 :=
    match serper_results with
    | [] => parts7
    | r :: _ =>
      let paa_questions := ((r.people_also_ask.getD []).map (fun p => p.question.getD "")).take 5
      if paa_questions.isEmpty then parts7
      else parts7 ++ ["PEOPLE ALSO ASK: " ++ joinSemi paa_questions]
  let parts9 :=
    if content_gaps.isEmpty then parts8
    else parts8 ++ ["CONTENT GAPS TO ADDRESS: " ++ joinSemi ((content_gaps.take 3).map (fun g => g.topic.getD ""))]
  String.intercalate "\n" parts9

/-- Substring test helper: true when the first list occurs as a leading
segment of the second. -/
def leadsWith : List Char → List Char → Bool
  | [], _ => true
  | _ :: _, [] => false
  | p :: ps, h :: hs => p == h && leadsWith ps hs

/-- Substring containment over character lists, modelling the Python
membership test on strings. -/
def hasSubList (pat : List Char) : List Char → Bool
  | [] => pat.isEmpty
  | c :: tl => leadsWith pat (c :: tl) || hasSubList pat tl

/-- Python substring membership: pat in hay. -/
def strContainsSub (hay pat : String) : Bool := hasSubList pat.data hay.data

/-- Pydantic v2 ValidationInfo: the object passed as the second positional
argument to a field validator declared with two value arguments, regardless
of that parameter being named values.  It exposes the data of the fields
validated so far and the field name, but implements no membership or
iteration protocol. -/
structure ValidationInfo where
  data : List (String × JVal)
  field_name : String

/-- Python membership test with a ValidationInfo receiver: ValidationInfo
defines neither a membership nor an iteration protocol, so the expression
raises TypeError. -/
def validationInfoContains (_k : String) (_info : ValidationInfo) : Except String Bool :=
  .error "TypeError: argument of type ValidationInfo is not iterable"

/-- Embedding of the title_must_contain_primary_keyword validator of
content_models.py, lines 59 to 66, under the semantics the import dictates:
the file imports field_validator, a pydantic v2 API (v1 does not export it),
and a v2 field validator receives a ValidationInfo object as its second
positional argument even when that parameter is named values.  The first
expression of the body is the membership test of the key target_keywords in
that object, which raises TypeError — pydantic converts only ValueError and
AssertionError into validation errors, so the TypeError escapes — and the
remaining lines of the body (truthiness test, indexing, lower, containment
check, written in the v1 values-dict idiom) are unreachable; they are
rendered below the membership test for completeness. -/
def title_must_contain_primary_keyword (v : String) (values : ValidationInfo) :
    Except String String :=
  match validationInfoContains "target_keywords" values with
  | .error e => .error e
  | .ok present =>
    if present then
      match values.data.lookup "target_keywords" with
      | some tkv =>
        if tkv.truthy then
          match tkv with
          | .arr (.str p :: _) =>
            let primary := p.toLower
            if strContainsSub v.toLower primary then .ok v
            else .error ("Title should contain primary keyword: " ++ primary)
          | _ => .error "TypeError"
        else .ok v
      | none => .ok v
    else .ok v

/-- Modelled from the spec: the intended reading of the title check, which
section 4.1 of the spec states as skipped rather than failing when the
primary keyword is not supplied to the validator.  This is exactly the
pydantic v1 values-dict semantics the validator body of content_models.py
lines 62 to 66 was written for (membership and truthiness of a
target_keywords entry among the previously validated fields, then a
lowercased containment check of the first entry in the title); the actual
v2 behavior of the code is title_must_contain_primary_keyword above. -/
def titleCheckIntended (v : String) (values : List (String × JVal)) :
    Except String String :=
  match values.lookup "target_keywords" with
  | some tkv =>
    if tkv.truthy then
      match tkv with
      | .arr (.str p :: _) =>
        let primary := p.toLower
        if strContainsSub v.toLower primary then .ok v
        else .error ("Title should contain primary keyword: " ++ primary)
      | _ => .error "TypeError"
    else .ok v
  | none => .ok v

/-- Field names declared by the ContentBrief model in content_models.py;
note target_keywords is not among them (it belongs to OutlineSection and
FAQ), which is what makes the title cross-field check unreachable. -/
def contentBriefFieldNames : List String :=
  ["title", "meta_description", "content_type", "search_intent", "target_audience",
   "total_word_count", "sections", "faqs", "content_gaps_addressed",
   "internal_link_opportunities"]

/-- True when the value is a JSON string. -/
def isStrVal : JVal → Bool
  | .str _ => true
  | _ => false

/-- True when the value is an array of strings. -/
def strListVal : JVal → Bool
  | .arr xs => xs.all isStrVal
  | _ => false

/-- Required string field. -/
def reqStr (fs : List (String × JVal)) (k : String) : Bool :=
  match fs.lookup k with
  | some (.str _) => true
  | _ => false

/-- Required list-of-strings field. -/
def reqStrList (fs : List (String × JVal)) (k : String) : Bool :=
  match fs.lookup k with
  | some j => strListVal j
  | none => false

/-- Optional list-of-strings field (defaulted to empty when absent). -/
def optStrList (fs : List (String × JVal)) (k : String) : Bool :=
  match fs.lookup k with
  | some j => strListVal j
  | none => true

/-- Required integer field. -/
def reqInt (fs : List (String × JVal)) (k : String) : Bool :=
  match fs.lookup k with
  | some (.num _) => true
  | _ => false

/-- Required integer field with inclusive bounds, as in pydantic Field ge le. -/
def reqIntIn (fs : List (String × JVal)) (k : String) (lo hi : Int) : Bool :=
  match fs.lookup k with
  | some (.num n) => decide (lo ≤ n) && decide (n ≤ hi)
  | _ => false

/-- Required string field constrained to an enumeration. -/
def reqEnum (fs : List (String × JVal)) (k : String) (vals : List String) : Bool :=
  match fs.lookup k with
  | some (.str s) => vals.contains s
  | _ => false

/-- Members of the ContentType enumeration of content_models.py. -/
def contentTypeValues : List String :=
  ["ultimate_guide", "how_to", "comparison", "listicle", "review"]

/-- Members of the SearchIntent enumeration of content_models.py. -/
def searchIntentValues : List String :=
  ["informational", "commercial", "transactional", "navigational"]

/-- Validation of one OutlineSection value against the model of
content_models.py, lines 33 to 40. -/
def validOutlineSection (j : JVal) : Bool :=
  match j with
  | .obj fs =>
    reqStr fs "section_id" && reqStr fs "section_title" && reqStr fs "short_description" &&
    reqStrList fs "target_keywords" && reqIntIn fs "suggested_word_count" 100 2000 &&
    optStrList fs "subsections" && optStrList fs "research_notes"
  | _ => false

/-- Validation of one FAQ value against content_models.py, lines 42 to 45. -/
def validFAQ (j : JVal) : Bool :=
  match j with
  | .obj fs =>
    reqStr fs "question" && reqStr fs "answer_brief" && optStrList fs "target_keywords"
  | _ => false

/-- Validation of one ContentGap value against content_models.py,
lines 28 to 31. -/
def validContentGap (j : JVal) : Bool :=
  match j with
  | .obj fs =>
    reqStr fs "topic" && reqStr fs "description" && reqIntIn fs "opportunity_score" 1 10
  | _ => false

/-- Whether the title field lets validation through.  A non-string title
fails type validation before the validator runs; a string title reaches the
validator, which receives a ValidationInfo (its data holding the fields
validated before title — empty, title being declared first) and raises
TypeError.  An escaping TypeError means validation never completes, so no
candidate is accepted either way; the raise is rendered as a failed check
here, which preserves exactly the set of accepted values (none). -/
def validTitle (fs : List (String × JVal)) : Bool :=
  match fs.lookup "title" with
  | some (.str t) =>
    match title_must_contain_primary_keyword t ⟨[], "title"⟩ with
    | .ok _ => true
    | .error _ => false
  | _ => false

/-- Schema-layer validation of a candidate ContentBrief value, embedding
the pydantic model of content_models.py, lines 47 to 66: every declared
required field must be present with the declared kind, enumerated fields
must be members of their enumeration, the nested sequences must validate
elementwise, and the title validator must let the value through.  Because
the title validator raises TypeError on every string title (see
title_must_contain_primary_keyword), the real model accepts no candidate at
all; this predicate therefore computes to false on every input, with the
field-by-field structure kept so each clause can be traced to its source
line.  Note the source puts no nonemptiness constraint on the sections
list.  Extra keys are ignored, matching the default pydantic behavior. -/
def validateContentBrief (j : JVal) : Bool :=
  match j with
  | .obj fs =>
    validTitle fs && reqStr fs "meta_description" &&
    reqEnum fs "content_type" contentTypeValues &&
    reqEnum fs "search_intent" searchIntentValues &&
    reqStr fs "target_audience" && reqInt fs "total_word_count" &&
    (match fs.lookup "sections" with
     | some (.arr xs) => xs.all validOutlineSection
     | _ => false) &&
    (match fs.lookup "faqs" with
     | some (.arr xs) => xs.all validFAQ
     | _ => false) &&
    (match fs.lookup "content_gaps_addressed" with
     | some (.arr xs) => xs.all validContentGap
     | _ => false) &&
    optStrList fs "internal_link_opportunities"
  | _ => false

/-- Embedding of the tier-3 minimal fallback dict literal of
content_strategist.py, lines 162 to 183, for a typed keyword object. -/
def minimalBrief (k : KeywordData) (content_strategy : StrategyConfig) : JVal :=
  .obj [
    ("title", .str ("Complete Guide to " ++ pyTitle k.primary)),
    ("meta_description", .str ("Discover everything about " ++ k.primary ++ ". Expert insights and recommendations.")),
    ("content_type", .str (content_strategy.content_type.getD "ultimate_guide")),
    ("search_intent", .str (content_strategy.search_intent.getD "informational")),
    ("target_audience", .str (content_strategy.target_audience.getD "general audience")),
    ("total_word_count", .num (Int.ofNat (content_strategy.estimated_word_count.getD 2500))),
    ("sections", .arr [ .obj [
        ("section_id", .str "introduction"),
        ("section_title", .str ("What is " ++ pyTitle k.primary ++ "?")),
        ("short_description", .str "Introduction and overview"),
        ("target_keywords", .arr [.str k.primary]),
        ("suggested_word_count", .num 300),
        ("subsections", .arr [.str "Overview", .str "Key Benefits"]),
        ("research_notes", .arr [.str "Define the topic clearly"]) ] ]),
    ("faqs", .arr []),
    ("content_gaps_addressed", .arr []),
    ("internal_link_opportunities", .arr []) ]

/-- Embedding of content_strategist._parse_outline_manually, lines 146 to
183.  The brace-delimited extraction and json decode are attempted first;
a decode exception is swallowed by the bare except of line 158 and control
falls to the minimal-fallback literal.  That literal reads
keywords.primary, which raises AttributeError when the keywords input is a
generic mapping (a mapping has no primary attribute); the error value
models that exception, which escapes this function. -/
def parse_outline_manually (raw : String) (keywords : KeywordInput)
    (content_strategy : StrategyConfig) : Except Unit JVal :=
  let extracted : Option JVal :=
    match extractBraced raw with
    | some jstr => jsonLoads jstr
    | none => none
  match extracted with
  | some parsed => .ok parsed
  | none =>
    match keywords with
    | .dict _ _ _ _ => .error ()
    | .obj k => .ok (minimalBrief k content_strategy)

/-- Model of the schema-constrained decode performed by the pydantic output
parsing step on the constrained chain of content_strategist.py, line 122:
decode the response text as JSON and accept only values that Schema-Layer
validation lets through.  Since the title validator raises on every
candidate, this decode in fact never succeeds — every constrained chain
invocation ends in the except branch of line 131. -/
def pydanticOutputParse (s : String) : Option JVal :=
  match jsonLoads s with
  | some j => if validateContentBrief j then some j else none
  | none => none

/-- One possible behavior of a blocking inference-service invocation: the
call raises (transport failure) or returns response text. -/
inductive LLMOutcome where
  | fail
  | text (s : String)

/-- Behavior of the inference service for one pipeline run: the response of
the schema-constrained chain invocation (line 124) and of the later
unconstrained chain invocation (line 135), should each be reached. -/
structure LLMOracle where
  constrained : LLMOutcome
  unconstrained : LLMOutcome

/-- Outcome of the first (schema-constrained) chain: none when the call
raised or its text failed schema-constrained decoding. -/
def first_attempt (oracle : LLMOracle) : Option JVal :=
  match oracle.constrained with
  | .fail => none
  | .text s => pydanticOutputParse s

/-- A value stored into the outline slot: either a validated ContentBrief
object produced by the constrained chain (stored through its dict form) or
a plain mapping produced by the fallback path. -/
inductive OutlineValue where
  | brief (j : JVal)
  | json (j : JVal)

/-- Python truthiness of an outline value: a pydantic object is always
truthy, a plain mapping is truthy when nonempty. -/
def OutlineValue.truthy : OutlineValue → Bool
  | .brief _ => true
  | .json j => j.truthy

/-- Embedding of content_strategist._generate_outline_with_llm, lines 83 to
144, with the inference service abstracted by the oracle.  The second
component counts the inference-service round trips performed (each chain
invocation is one blocking call, attempted transport failures included).
Any exception of the first chain (transport or schema violation) enters
the except of line 131, which always invokes the unconstrained chain; an
exception there, or inside the manual parse, is caught at line 143 and
yields none. -/
def generate_outline_with_llm (oracle : LLMOracle) (_context : String)
    (keywords : KeywordInput) (content_strategy : StrategyConfig) :
    Option OutlineValue × Nat :=
  match first_attempt oracle with
  | some j => (some (.brief j), 1)
  | none =>
    match oracle.unconstrained with
    | .fail => (none, 2)
    | .text raw =>
      match parse_outline_manually raw keywords content_strategy with
      | .ok j => (some (.json j), 2)
      | .error _ => (none, 2)

/-- Confidence score written on the success branch (0.9 in the source). -/
def conf_high : ℚ := 9 / 10

/-- Confidence score written on the failure branch (0.3 in the source). -/
def conf_low : ℚ := 3 / 10

/-- Pipeline state threaded through the agent, from state_models.OutlineState
as used by content_strategist.py: the upstream input slots (keywords is
accessed unconditionally; the other inputs are read through state.get with
defaults, hence optional) and the output slots outline, errors and
confidence_scores. -/
structure PipelineState where
  keywords : KeywordInput
  content_strategy : Option StrategyConfig := none
  competitor_analysis : Option CompetitorAnalysis := none
  serper_results : Option (List SerperResult) := none
  content_gaps : Option (List ContentGapInput) := none
  outline : Option OutlineValue := none
  errors : List String := []
  confidence_scores : List (String × ℚ) := []

/-- Python dict assignment on an association list: replace in place the
first binding of the key, or append the binding when the key is new. -/
def setScore : List (String × ℚ) → String → ℚ → List (String × ℚ)
  | [], k, v => [(k, v)]
  | (k0, v0) :: rest, k, v =>
    if k0 = k then (k, v) :: rest else (k0, v0) :: setScore rest k v

/-- Remove every binding of a key; used to state frame conditions on the
confidence-score mapping. -/
def dropKey (m : List (String × ℚ)) (k : String) : List (String × ℚ) :=
  m.filter (fun p => !(p.1 == k))

/-- Context building plus generation, as wired by generate_content_strategy
lines 12 to 22: inputs are read out of the state (optional ones through
state.get with their defaults) and handed to the context builder and the
generation function. -/
def run_outcome (oracle : LLMOracle) (state : PipelineState) : Option OutlineValue × Nat :=
  generate_outline_with_llm oracle
    (build_strategy_context state.keywords (state.content_strategy.getD {})
      (state.competitor_analysis.getD {}) (state.serper_results.getD [])
      (state.content_gaps.getD []))
    state.keywords (state.content_strategy.getD {})

/-- Embedding of content_strategist.generate_content_strategy, lines 8 to
31.  The outline value is stored only when truthy (the if of line 24, which
treats None and an empty extracted mapping alike); otherwise one error
string is appended and the lowered confidence recorded. -/
def generate_content_strategy (oracle : LLMOracle) (state : PipelineState) : PipelineState :=
  match (run_outcome oracle state).1 with
  | some o =>
    if o.truthy then
      { state with outline := some o,
                   confidence_scores := setScore state.confidence_scores "content_strategy" conf_high }
    else
      { state with errors := state.errors ++ ["Failed to generate content outline"],
                   confidence_scores := setScore state.confidence_scores "content_strategy" conf_low }
  | none =>
    { state with errors := state.errors ++ ["Failed to generate content outline"],
                 confidence_scores := setScore state.confidence_scores "content_strategy" conf_low }

/-- Whether the generation step of a run produces a truthy outline value. -/
def outcome_truthy (oracle : LLMOracle) (state : PipelineState) : Bool :=
  match (run_outcome oracle state).1 with
  | some o => o.truthy
  | none => false

/-- A concrete well-formed input state with a typed keyword object, used by
the concrete-input theorems. -/
def st0 : PipelineState :=
  { keywords := .obj { primary := "bread" } }

/-- A concrete input state whose keyword mapping lacks the primary key. -/
def stNoPrimary : PipelineState :=
  { keywords := .dict none none none none }

/-- The two confidence constants differ. -/
theorem conf_high_ne_low : conf_high ≠ conf_low := by
  norm_num [conf_high, conf_low]

/-- Lookup of the just-assigned key after a dict assignment. -/
theorem setScore_lookup (m : List (String × ℚ)) (k : String) (v : ℚ) :
    (setScore m k v).lookup k = some v := by
  induction m with
  | nil => simp [setScore, List.lookup]
  | cons p rest ih =>
    obtain ⟨k0, v0⟩ := p
    by_cases hk : k0 = k
    · subst hk; simp [setScore, List.lookup]
    · have hbe : (k == k0) = false := beq_eq_false_iff_ne.mpr (Ne.symm hk)
      simp [setScore, hk, List.lookup, hbe, ih]

/-- A dict assignment leaves every other binding untouched. -/
theorem dropKey_setScore (m : List (String × ℚ)) (k : String) (v : ℚ) :
    dropKey (setScore m k v) k = dropKey m k := by
  induction m with
  | nil => simp [setScore, dropKey]
  | cons p rest ih =>
    obtain ⟨k0, v0⟩ := p
    by_cases hk : k0 = k
    · subst hk; simp [setScore, dropKey]
    · have hbe : (k0 == k) = false := beq_eq_false_iff_ne.mpr hk
      simp only [setScore, hk, if_false, dropKey, List.filter, hbe, Bool.not_false]
      exact congrArg _ (by simpa [dropKey] using ih)

/-- The title clause of validation lets no field mapping through: a string
title reaches the validator, which raises on the membership test; any other
title shape fails type validation. -/
theorem validTitle_false (fs : List (String × JVal)) : validTitle fs = false := by
  unfold validTitle
  cases fs.lookup "title" with
  | none => rfl
  | some jv => cases jv <;> rfl

/-- Schema-Layer validation as implemented accepts no candidate value. -/
theorem validateContentBrief_false (j : JVal) : validateContentBrief j = false := by
  cases j with
  | obj fs => simp [validateContentBrief, validTitle_false]
  | null => rfl
  | bool b => rfl
  | num n => rfl
  | str s => rfl
  | arr xs => rfl

/-- The schema-constrained decode never succeeds, for any response text. -/
theorem pydanticOutputParse_none (s : String) : pydanticOutputParse s = none := by
  unfold pydanticOutputParse
  cases jsonLoads s with
  | none => rfl
  | some j => simp [validateContentBrief_false]

/-- Claim C1, counterexample: for a well-formed input state with a typed
keyword object, when both inference invocations raise, the run returns with
the outline slot unpopulated (while appending an error), contradicting the
claim that the outline is always populated with an invariant-satisfying
value. -/
theorem C1_counterexample :
    (generate_content_strategy ⟨.fail, .fail⟩ st0).outline = none ∧
    (generate_content_strategy ⟨.fail, .fail⟩ st0).errors =
      ["Failed to generate content outline"] := ⟨rfl, rfl⟩

/-- Claim C1, amended: for every oracle behavior and every well-formed input
state, the run terminates and returns a state that either holds a
generated outline with confidence 0.9 and the error log unchanged, or
leaves the outline slot exactly as it was (hence possibly unpopulated) with
confidence 0.3 and exactly one appended error entry.  No guarantee relates
the stored value to the ContentBrief invariants on the fallback path. -/
theorem C1_run_dichotomy (oracle : LLMOracle) (state : PipelineState) :
    (∃ v, (generate_content_strategy oracle state).outline = some v ∧
        ((generate_content_strategy oracle state).confidence_scores).lookup "content_strategy" =
          some conf_high ∧
        (generate_content_strategy oracle state).errors = state.errors) ∨
    ((generate_content_strategy oracle state).outline = state.outline ∧
        ((generate_content_strategy oracle state).confidence_scores).lookup "content_strategy" =
          some conf_low ∧
        (generate_content_strategy oracle state).errors =
          state.errors ++ ["Failed to generate content outline"]) := by
  unfold generate_content_strategy
  cases h : (run_outcome oracle state).1 with
  | none => right; simp [setScore_lookup]
  | some v =>
    cases ht : v.truthy with
    | true => left; exact ⟨v, by simp [ht, setScore_lookup]⟩
    | false => right; simp [ht, setScore_lookup]

/-- Claim C2, counterexample: the constrained chain returns text that fails
schema-constrained decoding, recovery runs and (through the minimal
fallback) produces a truthy outline, and the run ends with confidence 0.9
and no new error entry, contradicting the claimed 0.3 and single appended
entry. -/
theorem C2_counterexample :
    pydanticOutputParse "model output that fails schema parsing" = none ∧
    ((generate_content_strategy
        ⟨.text "model output that fails schema parsing", .text "plain prose reply"⟩
        st0).confidence_scores).lookup "content_strategy" = some conf_high ∧
    (generate_content_strategy
        ⟨.text "model output that fails schema parsing", .text "plain prose reply"⟩
        st0).errors = [] ∧
    conf_high ≠ conf_low := ⟨rfl, rfl, rfl, conf_high_ne_low⟩

/-- Claim C2, amended: the run ends with confidence 0.3 exactly when the
generation step produces no truthy outline value, and in exactly that case
the error log gains exactly one new entry; when fallback recovery yields a
truthy outline the confidence is 0.9 and no entry is appended.  Transport
and schema failures never escape: the run is a total function of the oracle
behavior. -/
theorem C2_confidence_vs_outcome (oracle : LLMOracle) (state : PipelineState) :
    (((generate_content_strategy oracle state).confidence_scores).lookup "content_strategy" =
        some conf_low ↔ outcome_truthy oracle state = false) ∧
    ((generate_content_strategy oracle state).errors =
        state.errors ++ ["Failed to generate content outline"] ↔
      outcome_truthy oracle state = false) := by
  unfold generate_content_strategy outcome_truthy
  cases h : (run_outcome oracle state).1 with
  | none => simp [setScore_lookup]
  | some v =>
    cases ht : v.truthy with
    | false => simp [ht, setScore_lookup]
    | true =>
      simp only [ht, if_true, setScore_lookup]
      constructor
      · constructor
        · intro hc
          have : conf_high = conf_low := by simpa using hc
          exact absurd this conf_high_ne_low
        · intro hc; cases hc
      · constructor
        · intro he
          have : ([] : List String) = ["Failed to generate content outline"] := by
            have := congrArg List.length he
            simp at this
          cases this
        · intro hc; cases hc

/-- Claim C3, counterexample: with tier 1 and tier 2 failed (the obtained
text holds no brace-delimited substring), the minimal synthetic brief built
for a typed keyword object carries content_type "ultimate_guide", not the
claimed StrategyConfig default "guide" of the spec. -/
theorem C3_counterexample :
    (match parse_outline_manually "no structured output"
        (.obj { primary := "sourdough bread" }) {} with
      | .ok j => jField j "content_type"
      | .error _ => none) = some (.str "ultimate_guide") ∧
    ("ultimate_guide" : String) ≠ "guide" := ⟨rfl, by decide⟩

/-- Claim C3, amended: when no brace-delimited substring is extractable,
the fallback returns, for a typed keyword object with any primary keyword,
exactly the minimal synthetic brief shown below — whose content_type
defaults to "ultimate_guide" (not "guide") while the other defaults match
the claim — and for a generic-mapping keyword input this tier raises (the
mapping has no primary attribute), so the tier is total only on the
typed-object path.  The title casing is grounded by the concrete
title-cased example. -/
theorem C3_minimal_brief (p : String) (sec lsi lt : List String) :
    parse_outline_manually "no structured output"
        (.obj { primary := p, secondary := sec, lsi := lsi, longtail := lt }) {} =
      .ok (.obj [
        ("title", .str ("Complete Guide to " ++ pyTitle p)),
        ("meta_description", .str ("Discover everything about " ++ p ++ ". Expert insights and recommendations.")),
        ("content_type", .str "ultimate_guide"),
        ("search_intent", .str "informational"),
        ("target_audience", .str "general audience"),
        ("total_word_count", .num 2500),
        ("sections", .arr [ .obj [
            ("section_id", .str "introduction"),
            ("section_title", .str ("What is " ++ pyTitle p ++ "?")),
            ("short_description", .str "Introduction and overview"),
            ("target_keywords", .arr [.str p]),
            ("suggested_word_count", .num 300),
            ("subsections", .arr [.str "Overview", .str "Key Benefits"]),
            ("research_notes", .arr [.str "Define the topic clearly"]) ] ]),
        ("faqs", .arr []),
        ("content_gaps_addressed", .arr []),
        ("internal_link_opportunities", .arr []) ]) ∧
    pyTitle "sourdough bread" = "Sourdough Bread" ∧
    (∀ pd sd ld td, parse_outline_manually "no structured output" (.dict pd sd ld td) {} =
      .error ()) :=
  ⟨rfl, rfl, fun _ _ _ _ => rfl⟩

/-- Claim C4, counterexample: tier-2 best-effort extraction decodes the
first brace-delimited substring without any schema validation, so a run
whose unconstrained response text is a JSON object unrelated to the brief
shape stores into the outline a value that fails ContentBrief validation. -/
theorem C4_counterexample :
    parse_outline_manually "\x7b\"a\": 1\x7d" (.obj { primary := "bread" }) {} =
      .ok (.obj [("a", .num 1)]) ∧
    validateContentBrief (.obj [("a", .num 1)]) = false ∧
    (generate_content_strategy ⟨.text "schema decode failed", .text "\x7b\"a\": 1\x7d"⟩ st0).outline =
      some (.json (.obj [("a", .num 1)])) := ⟨rfl, rfl, rfl⟩

/-- Claim C4, amended: no tier produces a value that passes Schema-Layer
re-validation.  The tier-2 extraction performs no validation at all and can
store schema-violating values (counterexample above); and the Schema Layer
as implemented accepts nothing whatsoever — the title field validator
raises TypeError on every string title, and a non-string title fails type
validation — so re-validation fails for every candidate value, the tier-3
minimal brief included, and the schema-constrained tier itself can never
produce a brief in the first place. -/
theorem C4_no_revalidation :
    (∀ j : JVal, validateContentBrief j = false) ∧
    (∀ s : String, pydanticOutputParse s = none) :=
  ⟨validateContentBrief_false, pydanticOutputParse_none⟩

/-- Claim C5, counterexample: a generic keyword mapping lacking the primary
key does not fail fast with InvalidInput; context building succeeds with an
empty primary-keyword line and the run proceeds to its normal completion
(its only recorded error being the generation-failure entry of the
orchestrator, here forced by a doubly failing oracle). -/
theorem C5_counterexample :
    build_strategy_context (.dict none none none none) {} {} [] [] =
      "PRIMARY KEYWORD: \nCONTENT TYPE: guide\nSEARCH INTENT: informational\nTARGET WORD COUNT: 2500" ∧
    (generate_content_strategy ⟨.fail, .fail⟩ stNoPrimary).errors =
      ["Failed to generate content outline"] ∧
    (generate_content_strategy ⟨.fail, .fail⟩ stNoPrimary).confidence_scores =
      [("content_strategy", conf_low)] := ⟨rfl, rfl, rfl⟩

/-- Claim C5, amended: a generic keyword mapping without the primary key is
treated exactly as primary equal to the empty string — no InvalidInput
exists in the code and context building never fails — and with every
optional input absent the built context is the plain four-line block. -/
theorem C5_missing_primary_as_empty (sd ld td : Option (List String)) (cfg : StrategyConfig)
    (ca : CompetitorAnalysis) (sr : List SerperResult) (cg : List ContentGapInput) :
    build_strategy_context (.dict none sd ld td) cfg ca sr cg =
      build_strategy_context (.dict (some "") sd ld td) cfg ca sr cg ∧
    build_strategy_context (.dict (some "bread") none none none) {} {} [] [] =
      "PRIMARY KEYWORD: bread\nCONTENT TYPE: guide\nSEARCH INTENT: informational\nTARGET WORD COUNT: 2500" :=
  ⟨rfl, rfl⟩

/-- Claim C6, counterexample: when the constrained chain obtains response
text that fails schema-constrained decoding (a parse failure with raw text
present), the code still performs a second, unconstrained inference
invocation: the round-trip count is 2, not the 1 the claim implies for
this case. -/
theorem C6_counterexample :
    pydanticOutputParse "the model returned prose" = none ∧
    (generate_outline_with_llm ⟨.text "the model returned prose", .text "second prose reply"⟩
        "ctx" (.obj { primary := "bread" }) {}).2 = 2 := ⟨rfl, rfl⟩

/-- Claim C6, amended: every run performs at most two inference round
trips, and exactly one precisely when the schema-constrained first attempt
succeeds; on any first-tier failure — transport or parse, raw text present
or not — one additional unconstrained invocation is always issued, with no
retry loop. -/
theorem C6_round_trips (oracle : LLMOracle) (context : String)
    (keywords : KeywordInput) (cfg : StrategyConfig) :
    (generate_outline_with_llm oracle context keywords cfg).2 ≤ 2 ∧
    ((generate_outline_with_llm oracle context keywords cfg).2 = 1 ↔
      (first_attempt oracle).isSome = true) := by
  unfold generate_outline_with_llm
  cases h : first_attempt oracle with
  | some j => simp [h]
  | none =>
    cases hu : oracle.unconstrained with
    | fail => simp [h, hu]
    | text raw =>
      cases hp : parse_outline_manually raw keywords cfg with
      | ok j => simp [h, hu, hp]
      | error e => simp [h, hu, hp]

/-- Claim C7: for primary keyword "sourdough bread" with all optional
inputs absent and an empty StrategyConfig, the built context is exactly the
four claimed lines joined by newlines, in order — in both accepted keyword
shapes. -/
theorem C7_context_exact :
    build_strategy_context (.dict (some "sourdough bread") none none none) {} {} [] [] =
      "PRIMARY KEYWORD: sourdough bread\nCONTENT TYPE: guide\nSEARCH INTENT: informational\nTARGET WORD COUNT: 2500" ∧
    build_strategy_context (.obj { primary := "sourdough bread" }) {} {} [] [] =
      "PRIMARY KEYWORD: sourdough bread\nCONTENT TYPE: guide\nSEARCH INTENT: informational\nTARGET WORD COUNT: 2500" :=
  ⟨rfl, rfl⟩

/-- Claim C8, counterexample: a typed keyword object with nonempty longtail
keywords still yields a context without any longtail line — the claim that
the typed-object path emits a comma-joined longtail line is false, because
the source rebinds longtail to None on both input paths. -/
theorem C8_counterexample :
    build_strategy_context
        (.obj { primary := "bread",
                longtail := ["best bread for beginners", "easy bread recipe"] }) {} {} [] [] =
      "PRIMARY KEYWORD: bread\nCONTENT TYPE: guide\nSEARCH INTENT: informational\nTARGET WORD COUNT: 2500" ∧
    strContainsSub
        (build_strategy_context
          (.obj { primary := "bread",
                  longtail := ["best bread for beginners", "easy bread recipe"] }) {} {} [] [])
        "LONGTAIL" = false :=
  ⟨rfl, rfl⟩

/-- Claim C8, amended: the longtail-keywords line is never emitted from
either input path; the built context is invariant under any change of the
longtail data, for the typed-object shape and for a longtail entry of the
generic mapping alike. -/
theorem C8_longtail_ignored (p : String) (sec lsi lt lt2 : List String)
    (pd : Option String) (sd ld td td2 : Option (List String))
    (cfg : StrategyConfig) (ca : CompetitorAnalysis) (sr : List SerperResult)
    (cg : List ContentGapInput) :
    build_strategy_context (.obj { primary := p, secondary := sec, lsi := lsi, longtail := lt })
        cfg ca sr cg =
      build_strategy_context (.obj { primary := p, secondary := sec, lsi := lsi, longtail := lt2 })
        cfg ca sr cg ∧
    build_strategy_context (.dict pd sd ld td) cfg ca sr cg =
      build_strategy_context (.dict pd sd ld td2) cfg ca sr cg := ⟨rfl, rfl⟩

/-- Claim C9 (code bug): the claim — matching spec section 4.1 and the
v1-idiom body of the validator, which treats its second argument as the
mapping of previously validated fields — says the title check is skipped
rather than failing when the primary keyword is unavailable, and indeed
ContentBrief declares no target_keywords field.  But the validator is
registered through the pydantic v2 field_validator API, which passes a
ValidationInfo object regardless of the parameter name, so its membership
test raises TypeError on every validation of a string title: at the failing
input below (the minimal-brief title, an empty validated-fields mapping)
the code errors where the intended reading returns the title unchanged. -/
theorem C9_title_check_raises :
    title_must_contain_primary_keyword "Complete Guide to Bread" ⟨[], "title"⟩ =
      .error "TypeError: argument of type ValidationInfo is not iterable" ∧
    titleCheckIntended "Complete Guide to Bread" [] = .ok "Complete Guide to Bread" ∧
    "target_keywords" ∉ contentBriefFieldNames :=
  ⟨rfl, rfl, by decide⟩

/-- Claim C10: the run never mutates the upstream input slots (keywords,
content_strategy, competitor_analysis, serper_results, content_gaps); it
writes only the outline slot (and only on the success path), the
content_strategy confidence score (all other score bindings untouched), and
the error log (one appended entry, only on the failure path — on success
the error log is unchanged). -/
theorem C10_frame (oracle : LLMOracle) (state : PipelineState) :
    (generate_content_strategy oracle state).keywords = state.keywords ∧
    (generate_content_strategy oracle state).content_strategy = state.content_strategy ∧
    (generate_content_strategy oracle state).competitor_analysis = state.competitor_analysis ∧
    (generate_content_strategy oracle state).serper_results = state.serper_results ∧
    (generate_content_strategy oracle state).content_gaps = state.content_gaps ∧
    dropKey (generate_content_strategy oracle state).confidence_scores "content_strategy" =
      dropKey state.confidence_scores "content_strategy" ∧
    (generate_content_strategy oracle state).errors =
      (if outcome_truthy oracle state then state.errors
       else state.errors ++ ["Failed to generate content outline"]) ∧
    (generate_content_strategy oracle state).outline =
      (if outcome_truthy oracle state then (run_outcome oracle state).1 else state.outline) := by
  unfold generate_content_strategy outcome_truthy
  cases h : (run_outcome oracle state).1 with
  | none => simp [dropKey_setScore]
  | some v =>
    cases ht : v.truthy with
    | true => simp [ht, dropKey_setScore]
    | false => simp [ht, dropKey_setScore]

end ArticleOutline
